import Mathlib

/-!
Shallow embedding of the magsdk/runner build scripts.

The repository has two source files:
an application package generator, which prepares a webpack configuration,
normalizes build variables, and populates a global task registry; and a
tasks generator for CSS, which concatenates per-dependency CSS files into
one output file per (mode, resolution) pair.

File systems are modelled as functions from path to optional content
(none meaning the read fails), the task registry as an association list
with last-binding-wins lookup (matching repeated assignment to a mutable
object keyed by name), and the asynchronous fan-out of reads as a
monadic traversal in the Option monad.
-/

/-! ## CSS aggregation (function build in the CSS tasks file) -/

/-- Configuration object passed to the CSS build task: a mode
(develop or release), a resolution string and the output file path. -/
structure CssConfig where
  mode : String
  resolution : String
  outFile : String
deriving DecidableEq, Repr

/-- Whether the character list l starts with the pattern pat. -/
def listStartsWith : List Char → List Char → Bool
  | [], _ => true
  | _ :: _, [] => false
  | p :: ps, c :: cs => p == c && listStartsWith ps cs

/-- Whether the pattern pat occurs as a contiguous run inside l. -/
def listContainsSeq (pat : List Char) : List Char → Bool
  | [] => listStartsWith pat []
  | c :: cs => listStartsWith pat (c :: cs) || listContainsSeq pat cs

/-- Test used to select modules: the JS code keeps a dependency name when
moduleName.indexOf of the text -component- is not -1, i.e. when the name
contains -component- as a substring. -/
def isComponentModule (moduleName : String) : Bool :=
  listContainsSeq "-component-".data moduleName.data

/-- Module list assembled by build: the constant mag-app first, then the
keys of dependencies followed by the keys of devDependencies, keeping only
names that contain -component-. -/
def componentModules (deps devDeps : List String) : List String :=
  "mag-app" :: (deps ++ devDeps).filter isComponentModule

/-- Path of the CSS file read for one module:
node_modules/(module)/css/(mode).(resolution).css . -/
def cssFilePath (cfg : CssConfig) (moduleName : String) : String :=
  "node_modules/" ++ moduleName ++ "/css/" ++ cfg.mode ++ "." ++ cfg.resolution ++ ".css"

/-- All paths the build reads, in read order. -/
def readPaths (deps devDeps : List String) (cfg : CssConfig) : List String :=
  (componentModules deps devDeps).map (cssFilePath cfg)

/-- Observable effect of one build invocation: the single write performed,
if any, and whether the completion callback was invoked. -/
structure BuildEffect where
  written : Option (String × String)
  doneCalled : Bool
deriving DecidableEq, Repr

/-- Collect the results of every read, in order, failing as a whole when
any single read fails: the aggregation semantics of the parallel helper
used by build (first error reported, results in task order otherwise). -/
def readAll (fsRead : String → Option String) : List String → Option (List String)
  | [] => some []
  | p :: rest =>
    match fsRead p, readAll fsRead rest with
    | some c, some cs => some (c :: cs)
    | _, _ => none

/-- The build function: read every selected per-module CSS file in
parallel; when no read fails, write the contents joined by a newline to the
output file and signal completion; when some read fails the error branch of
the callback does nothing, so nothing is written and the completion
callback is never invoked. -/
def build (fsRead : String → Option String) (deps devDeps : List String)
    (cfg : CssConfig) : BuildEffect :=
  match readAll fsRead (readPaths deps devDeps cfg) with
  | some contents =>
      { written := some (cfg.outFile, String.intercalate "\n" contents)
        doneCalled := true }
  | none =>
      { written := none
        doneCalled := false }

/-! ## Concrete data for counterexamples and witnesses -/

/-- Demo file system: three module CSS files exist for release.480. -/
def demoFs : String → Option String := fun p =>
  if p = "node_modules/mag-app/css/release.480.css" then some "MAG"
  else if p = "node_modules/x-component-a/css/release.480.css" then some "XCOMP"
  else if p = "node_modules/plain/css/release.480.css" then some "PLAIN"
  else none

/-- Demo build configuration. -/
def demoCfg : CssConfig :=
  { mode := "release", resolution := "480", outFile := "out.css" }

/-- Demo content function listing what demoFs stores per module. -/
def demoContent : String → String := fun m =>
  if m = "mag-app" then "MAG" else "XCOMP"

/-- Demo configuration in develop mode: demoFs stores no develop files, so
every read fails for it. -/
def demoCfgDev : CssConfig :=
  { mode := "develop", resolution := "480", outFile := "o.css" }

/-! ## Build variables and their preparation (shared by both generators) -/

/-- Values stored in the variables mapping of a build configuration:
strings, booleans and plain objects (enough for the literal
livereload object with a numeric port field). -/
inductive JsValue where
  | str (s : String)
  | boolean (b : Bool)
  | obj (fields : List (String × Nat))
deriving DecidableEq, Repr

/-- Escape step applied to every variable value: a string s becomes the
string made of a double quote, s and a double quote; any other value is
left unchanged. -/
def escapeVar : JsValue → JsValue
  | JsValue.str s => JsValue.str ("\"" ++ s ++ "\"")
  | v => v

/-- Normalization of the DEVELOP variable: the double-bang of
(value and value strictly equal to the string true), which is the boolean
true exactly when the incoming value is the string true. -/
def developFlag (v : Option JsValue) : Bool :=
  decide (v = some (JsValue.str "true"))

/-- Preparation of the variables mapping before injection into the
bundler: DEVELOP is overwritten with its normalized boolean, LIVERELOAD is
overwritten with the literal object with port 35729, and then every
remaining string value is escaped with surrounding double quotes. -/
def prepareVars (vars : String → Option JsValue) : String → Option JsValue :=
  fun n =>
    (if n = "LIVERELOAD" then some (JsValue.obj [("port", 35729)])
     else if n = "DEVELOP" then some (JsValue.boolean (developFlag (vars "DEVELOP")))
     else vars n).map escapeVar

/-- Demo variables mapping for witnesses. -/
def demoVars : String → Option JsValue := fun n =>
  if n = "API" then some (JsValue.str "http")
  else if n = "DEVELOP" then some (JsValue.str "true")
  else if n = "FLAG" then some (JsValue.boolean true)
  else none

/-! ## Task registry and the CSS tasks generator -/

/-- A task definition: an opaque callback, a serial composite, a parallel
composite, or a reference to another task by name. -/
inductive TaskDef where
  | callback (id : String)
  | serial (steps : List TaskDef)
  | parallel (steps : List TaskDef)
  | ref (taskName : String)

/-- The process-wide task registry: an association list of task name and
task definition, in registration order. -/
abbrev Registry := List (String × TaskDef)

/-- Lookup in the registry; a later registration of the same name wins,
matching repeated assignment to an object keyed by name. -/
def taskLookup (reg : Registry) (taskName : String) : Option TaskDef :=
  reg.reverse.lookup taskName

/-- Generator options used to build task names. -/
structure GenOptions where
  pre : String
  suffix : String
deriving DecidableEq, Repr

/-- Caller-supplied overrides for the generator options; an absent field
keeps the current default. -/
structure GenOverrides where
  pre : Option String := none
  suffix : Option String := none
deriving DecidableEq, Repr

/-- Merging caller overrides into the defaults object; the JS code
performs this with Object.assign onto the shared defaults, so the result
is also the new defaults object. -/
def assignOptions (d : GenOptions) (o : GenOverrides) : GenOptions :=
  { pre := o.pre.getD d.pre, suffix := o.suffix.getD d.suffix }

/-- Initial defaults of the CSS tasks generator. -/
def cssDefaults : GenOptions := { pre := "css:", suffix := "" }

/-- One call of the CSS tasks generator: merge the overrides into the
shared defaults (mutating them) and register three tasks named from the
merged options; the result is the new defaults object together with the
extended registry. Callback bodies close over the given configuration and
are modelled as opaque identifiers. -/
def cssGenerator (cfg : CssConfig) (d : GenOptions) (o : GenOverrides)
    (reg : Registry) : GenOptions × Registry :=
  let opts := assignOptions d o
  (opts,
   reg ++ [(opts.pre ++ "config" ++ opts.suffix, TaskDef.callback "css.config"),
           (opts.pre ++ "build" ++ opts.suffix, TaskDef.callback "css.build"),
           (opts.pre ++ "clear" ++ opts.suffix, TaskDef.callback "css.clear")])

/-- Demo overrides supplying only a suffix. -/
def demoO1 : GenOverrides := { suffix := some ":480" }

/-- Demo overrides supplying nothing. -/
def demoO2 : GenOverrides := {}

/-! ## Application package generator -/

/-- Configuration passed to the application package generator: the
variables mapping and the package type. -/
structure AppConfig where
  vars : String → Option JsValue
  type : Option String

/-- JS short-circuit or on an optional string value: an absent or empty
string is falsy and yields the alternative. -/
def jsOr (v : Option String) (alt : String) : String :=
  match v with
  | some s => if s = "" then alt else s
  | none => alt

/-- Extract a string value from a variable. -/
def varString : Option JsValue → Option String
  | some (JsValue.str s) => some s
  | _ => none

/-- Lowercasing of a string, character by character (model of the JS
toLowerCase call on the ASCII names used here). -/
def toLowerStr (s : String) : String :=
  String.mk (s.data.map Char.toLower)

/-- The build target directory: build joined with the TARGET variable
when truthy, else the lowercased PLATFORM variable when truthy, else the
lowercasing of the literal fallback TARGET. -/
def targetDir (tgt plat : Option String) : String :=
  "build/" ++ jsOr tgt (toLowerStr (jsOr plat "TARGET"))

/-- The resolutions for which per-resolution tasks are generated. -/
def resolutions : List String := ["480", "576", "720", "1080"]

/-- Modelled from the spec: the sass generator is supplied by the external
package runner-generator-sass, whose source is not part of this
repository; per the spec it populates the registry with per-resolution
variants following the same prefix and suffix naming convention as the CSS
generator, with prefix sass: and the caller-supplied suffix. -/
def sassTasks (suffix : String) : Registry :=
  [("sass:config" ++ suffix, TaskDef.callback "sass.config"),
   ("sass:build" ++ suffix, TaskDef.callback "sass.build"),
   ("sass:clear" ++ suffix, TaskDef.callback "sass.clear")]

/-- Per-resolution registrations of the application generator: for each
resolution, the sass generator tasks then the CSS generator tasks, both
called with suffix colon-resolution; the CSS generator threads its shared
defaults object through the calls. -/
def perResolutionTasks (cssMode target : String) (d : GenOptions) :
    GenOptions × Registry :=
  resolutions.foldl
    (fun acc r =>
      cssGenerator
        { mode := cssMode, resolution := r,
          outFile := target ++ "/css/sdk." ++ r ++ ".css" }
        acc.1 { suffix := some (":" ++ r) } (acc.2 ++ sassTasks (":" ++ r)))
    (d, [])

/-- CSS mode chosen by the application generator after variable
preparation: develop when the normalized DEVELOP flag is true, else
release. -/
def appCssMode (cfg : AppConfig) : String :=
  if developFlag (cfg.vars "DEVELOP") then "develop" else "release"

/-- Target directory computed by the application generator from the raw
TARGET and PLATFORM variables. -/
def appTarget (cfg : AppConfig) : String :=
  targetDir (varString (cfg.vars "TARGET")) (varString (cfg.vars "PLATFORM"))

/-- The per-resolution block registered only for application-type
packages. -/
def appResolutionBlock (cfg : AppConfig) : Registry :=
  (perResolutionTasks (appCssMode cfg) (appTarget cfg) cssDefaults).2

/-- The main tasks registered unconditionally at the end of the
application generator, in source order. -/
def mainTasks : Registry :=
  [("init", TaskDef.callback "init"),
   ("copy", TaskDef.callback "copy"),
   ("gettext:prepare", TaskDef.callback "gettext.prepare"),
   ("sass:build", TaskDef.parallel [TaskDef.ref "sass:build:480",
      TaskDef.ref "sass:build:576", TaskDef.ref "sass:build:720",
      TaskDef.ref "sass:build:1080"]),
   ("css:build", TaskDef.parallel [TaskDef.ref "css:build:480",
      TaskDef.ref "css:build:576", TaskDef.ref "css:build:720",
      TaskDef.ref "css:build:1080"]),
   ("build", TaskDef.parallel [TaskDef.ref "pug:build", TaskDef.ref "sass:build",
      TaskDef.ref "css:build", TaskDef.ref "webpack:build", TaskDef.ref "copy",
      TaskDef.serial [TaskDef.ref "gettext:prepare", TaskDef.ref "gettext:build"]]),
   ("watch", TaskDef.callback "watch"),
   ("serve", TaskDef.parallel [TaskDef.ref "static:start",
      TaskDef.ref "livereload:start", TaskDef.ref "repl:start",
      TaskDef.ref "notify:start"]),
   ("default", TaskDef.serial [TaskDef.ref "build",
      TaskDef.parallel [TaskDef.ref "watch", TaskDef.ref "serve"]])]

/-- Registry produced by one run of the application package generator:
the contributions of the external generators (notify, repl, eslint,
gettext, static, livereload, webpack, npm), kept abstract as ext; then,
only for application-type packages, the pug generator contribution and
the per-resolution block; then the main tasks. -/
def appGenerator (ext pugTasks : Registry) (cfg : AppConfig) : Registry :=
  ext ++ (if cfg.type = some "app" then pugTasks ++ appResolutionBlock cfg else []) ++ mainTasks

/-- Demo application-type configuration. -/
def demoAppCfg : AppConfig := { vars := fun _ => none, type := some "app" }

/-- Demo library-type configuration. -/
def demoLibCfg : AppConfig := { vars := fun _ => none, type := none }

/-! ## Serial execution -/

/-- Modelled from the spec: the serial combinator of the external task
runner runs the referenced tasks one at a time, propagating the first
failure and aborting the remaining steps. The environment assigns each
step name its success; the result is the overall success together with
the list of steps that actually ran, in order. -/
def runSerial (env : String → Bool) : List String → Bool × List String
  | [] => (true, [])
  | n :: rest =>
    if env n then
      ((runSerial env rest).1, n :: (runSerial env rest).2)
    else (false, [n])

/-- Demo environment: only the step named a succeeds. -/
def demoEnv : String → Bool := fun n => n == "a"

/-! ## Helper lemmas about the monadic traversal of reads -/

theorem readAll_map_eq_some (fsRead : String → Option String)
    (pathOf content : String → String) :
    ∀ l : List String, (∀ m ∈ l, fsRead (pathOf m) = some (content m)) →
      readAll fsRead (l.map pathOf) = some (l.map content) := by
  intro l
  induction l with
  | nil => intro _; rfl
  | cons a t ih =>
      intro h
      have ha : fsRead (pathOf a) = some (content a) := h a (List.mem_cons_self a t)
      have ht : ∀ m ∈ t, fsRead (pathOf m) = some (content m) := by
        intro m hm
        exact h m (List.mem_cons_of_mem a hm)
      simp [readAll, ha, ih ht]

theorem readAll_eq_none_of_mem (fsRead : String → Option String)
    (pathOf : String → String) :
    ∀ l : List String, ∀ m ∈ l, fsRead (pathOf m) = none →
      readAll fsRead (l.map pathOf) = none := by
  intro l
  induction l with
  | nil => intro m hm; exact absurd hm (List.not_mem_nil m)
  | cons a t ih =>
      intro m hm hnone
      rcases List.mem_cons.mp hm with h | h
      · subst h
        simp [readAll, hnone]
      · cases hread : fsRead (pathOf a) with
        | none => simp [readAll, hread]
        | some v => simp [readAll, hread, ih m h hnone]

/-! ## Helper lemmas about registry lookup -/

theorem lookup_append_of_some {α β : Type} [BEq α] (a : α) (d : β) :
    ∀ l1 l2 : List (α × β), l1.lookup a = some d → (l1 ++ l2).lookup a = some d := by
  intro l1 l2 h
  induction l1 with
  | nil => simp [List.lookup] at h
  | cons p t ih =>
      obtain ⟨k, v⟩ := p
      rw [List.cons_append]
      cases hak : (a == k) with
      | true => simp_all [List.lookup]
      | false =>
          simp only [List.lookup, hak] at h ⊢
          exact ih h

theorem lookup_append_of_none {α β : Type} [BEq α] (a : α) :
    ∀ l1 l2 : List (α × β), l1.lookup a = none → (l1 ++ l2).lookup a = l2.lookup a := by
  intro l1 l2 h
  induction l1 with
  | nil => simp
  | cons p t ih =>
      obtain ⟨k, v⟩ := p
      rw [List.cons_append]
      cases hak : (a == k) with
      | true => simp_all [List.lookup]
      | false =>
          simp only [List.lookup, hak] at h ⊢
          exact ih h

theorem taskLookup_append_some (reg1 reg2 : Registry) (n : String) (d : TaskDef)
    (h : taskLookup reg2 n = some d) : taskLookup (reg1 ++ reg2) n = some d := by
  unfold taskLookup at h ⊢
  rw [List.reverse_append]
  exact lookup_append_of_some n d reg2.reverse reg1.reverse h

theorem taskLookup_append_none (reg1 reg2 : Registry) (n : String)
    (h : taskLookup reg2 n = none) : taskLookup (reg1 ++ reg2) n = taskLookup reg1 n := by
  unfold taskLookup at h ⊢
  rw [List.reverse_append]
  exact lookup_append_of_none n reg2.reverse reg1.reverse h

/-! ## Claim C1: concatenation order -/

/-- Claim C1, counterexample to the claim as stated: with dependency list
containing only the module plain (whose name has no -component- part) and
its CSS file present with content PLAIN, the build output is MAG alone and
not the newline join of the contents of mag-app and of every declared
dependency. -/
theorem css_build_concat_counterexample :
    (build demoFs ["plain"] [] demoCfg).written = some ("out.css", "MAG") ∧
    demoFs (cssFilePath demoCfg "plain") = some "PLAIN" ∧
    (build demoFs ["plain"] [] demoCfg).written ≠
      some ("out.css", String.intercalate "\n" ["MAG", "PLAIN"]) := by
  refine ⟨rfl, rfl, ?_⟩
  decide

/-- Claim C1 (amended): when every selected per-module CSS file is
readable, the build writes to the output file the newline join of the
per-module contents in exactly module-list order, and that list is mag-app
first, then the dependencies whose names contain -component- in
declaration order, then the devDependencies whose names contain
-component- in declaration order. -/
theorem css_build_concat_order (fsRead : String → Option String)
    (deps devDeps : List String) (cfg : CssConfig) (content : String → String)
    (h : ∀ m ∈ componentModules deps devDeps,
      fsRead (cssFilePath cfg m) = some (content m)) :
    componentModules deps devDeps =
      "mag-app" :: (deps.filter isComponentModule ++ devDeps.filter isComponentModule) ∧
    (build fsRead deps devDeps cfg).written =
      some (cfg.outFile,
        String.intercalate "\n" ((componentModules deps devDeps).map content)) := by
  constructor
  · simp [componentModules, List.filter_append]
  · have hr := readAll_map_eq_some fsRead (cssFilePath cfg) content
      (componentModules deps devDeps) h
    simp [build, readPaths, hr]

/-- Witness for the amended claim C1 at a concrete input. -/
theorem css_build_concat_order_witness :
    componentModules ["x-component-a"] [] =
      "mag-app" ::
        (["x-component-a"].filter isComponentModule ++ [].filter isComponentModule) ∧
    (build demoFs ["x-component-a"] [] demoCfg).written =
      some (demoCfg.outFile,
        String.intercalate "\n" ((componentModules ["x-component-a"] []).map demoContent)) :=
  css_build_concat_order demoFs ["x-component-a"] [] demoCfg demoContent (by decide)

/-! ## Claim C2: no output on a failed read -/

/-- Claim C2: if reading any one of the selected per-module CSS files
fails, then the output file write is never performed. -/
theorem css_build_no_write_on_failed_read (fsRead : String → Option String)
    (deps devDeps : List String) (cfg : CssConfig) (m : String)
    (hm : m ∈ componentModules deps devDeps)
    (hfail : fsRead (cssFilePath cfg m) = none) :
    (build fsRead deps devDeps cfg).written = none := by
  have hr := readAll_eq_none_of_mem fsRead (cssFilePath cfg)
    (componentModules deps devDeps) m hm hfail
  simp [build, readPaths, hr]

/-- Witness for claim C2 at a concrete input. -/
theorem css_build_no_write_witness :
    (build demoFs [] [] demoCfgDev).written = none :=
  css_build_no_write_on_failed_read demoFs [] [] demoCfgDev "mag-app"
    (by decide) (by decide)

/-! ## Claim C3: which files are read -/

/-- Claim C3, counterexample to the claim as stated: with dependency list
containing only the module plain, its CSS file is never read, while the
file of mag-app, a module outside both dependency lists, is read. -/
theorem css_build_reads_counterexample :
    ¬ cssFilePath demoCfg "plain" ∈ readPaths ["plain"] [] demoCfg ∧
    cssFilePath demoCfg "mag-app" ∈ readPaths ["plain"] [] demoCfg := by
  decide

/-- Claim C3 (amended): the modules whose CSS file is read are exactly
mag-app together with the names listed in dependencies or devDependencies
that contain -component-. -/
theorem css_build_reads_amended (deps devDeps : List String) (m : String) :
    m ∈ componentModules deps devDeps ↔
      m = "mag-app" ∨ ((m ∈ deps ∨ m ∈ devDeps) ∧ isComponentModule m = true) := by
  simp [componentModules, List.mem_filter, List.mem_append]
  tauto

/-! ## Claim C4: error forwarding to the completion callback -/

/-- Claim C4 is contradicted by the code: at a failing input (no develop
CSS file exists, so the read for mag-app fails) the build neither writes
nor ever invokes the completion callback, so the error is not forwarded
and the operation ends silently. -/
theorem css_build_done_not_called_on_failure :
    build demoFs [] [] demoCfgDev = { written := none, doneCalled := false } := by
  decide

/-! ## Claim C5: variable escaping and normalization -/

/-- Claim C5: after preparation, every variable other than DEVELOP and
LIVERELOAD whose value is the string s holds the escaped string made of a
double quote, s and a double quote; DEVELOP holds the normalized boolean,
which is true exactly when the incoming value is the string true; and a
non-string value of any other variable is left unchanged. -/
theorem prepare_vars_escaping (vars : String → Option JsValue) (n : String) :
    (∀ s, n ≠ "DEVELOP" → n ≠ "LIVERELOAD" → vars n = some (JsValue.str s) →
      prepareVars vars n = some (JsValue.str ("\"" ++ s ++ "\""))) ∧
    prepareVars vars "DEVELOP" = some (JsValue.boolean (developFlag (vars "DEVELOP"))) ∧
    (developFlag (vars "DEVELOP") = true ↔ vars "DEVELOP" = some (JsValue.str "true")) ∧
    (∀ v, n ≠ "DEVELOP" → n ≠ "LIVERELOAD" → vars n = some v →
      (∀ s, v ≠ JsValue.str s) → prepareVars vars n = some v) := by
  refine ⟨?_, rfl, ?_, ?_⟩
  · intro s h1 h2 hv
    simp [prepareVars, h1, h2, hv, escapeVar]
  · simp [developFlag]
  · intro v h1 h2 hv hns
    cases v with
    | str s => exact absurd rfl (hns s)
    | boolean b => simp [prepareVars, h1, h2, hv, escapeVar]
    | obj f => simp [prepareVars, h1, h2, hv, escapeVar]

/-- Witness for claim C5 at a concrete input. -/
theorem prepare_vars_escaping_witness :
    prepareVars demoVars "API" = some (JsValue.str ("\"" ++ "http" ++ "\"")) :=
  (prepare_vars_escaping demoVars "API").1 "http" (by decide) (by decide) rfl

/-! ## Claim C6: the three tasks of the CSS generator -/

/-- Claim C6: one call of the CSS tasks generator on the initial defaults
registers exactly three tasks, keyed by prefix plus config, build or clear
plus suffix, where the prefix falls back to css: and the suffix to the
empty string when not supplied in the options. -/
theorem css_generator_registers_three (cfg : CssConfig) (o : GenOverrides)
    (reg : Registry) :
    (cssGenerator cfg cssDefaults o reg).2 =
      reg ++ [((o.pre.getD "css:") ++ "config" ++ (o.suffix.getD ""),
                TaskDef.callback "css.config"),
              ((o.pre.getD "css:") ++ "build" ++ (o.suffix.getD ""),
                TaskDef.callback "css.build"),
              ((o.pre.getD "css:") ++ "clear" ++ (o.suffix.getD ""),
                TaskDef.callback "css.clear")] := rfl

/-! ## Claim C9: the shared defaults object is mutated in place -/

/-- Claim C9: a call of the CSS tasks generator merges its options into
the shared defaults object itself, so a suffix supplied in a first call
persists and is used by a later call that omits the suffix. -/
theorem css_generator_defaults_persist (cfg1 cfg2 : CssConfig)
    (o1 o2 : GenOverrides) (reg1 reg2 : Registry) (s : String)
    (h1 : o1.suffix = some s) (h2 : o2.suffix = none) :
    (cssGenerator cfg1 cssDefaults o1 reg1).1.suffix = s ∧
    (cssGenerator cfg2 (cssGenerator cfg1 cssDefaults o1 reg1).1 o2 reg2).2 =
      reg2 ++ [((o2.pre.getD (o1.pre.getD "css:")) ++ "config" ++ s,
                 TaskDef.callback "css.config"),
               ((o2.pre.getD (o1.pre.getD "css:")) ++ "build" ++ s,
                 TaskDef.callback "css.build"),
               ((o2.pre.getD (o1.pre.getD "css:")) ++ "clear" ++ s,
                 TaskDef.callback "css.clear")] := by
  simp [cssGenerator, assignOptions, cssDefaults, h1, h2]

/-- Witness for claim C9 at a concrete input. -/
theorem css_generator_defaults_persist_witness :
    (cssGenerator demoCfg cssDefaults demoO1 []).1.suffix = ":480" ∧
    (cssGenerator demoCfg (cssGenerator demoCfg cssDefaults demoO1 []).1 demoO2 []).2 =
      [] ++ [((demoO2.pre.getD (demoO1.pre.getD "css:")) ++ "config" ++ ":480",
               TaskDef.callback "css.config"),
             ((demoO2.pre.getD (demoO1.pre.getD "css:")) ++ "build" ++ ":480",
               TaskDef.callback "css.build"),
             ((demoO2.pre.getD (demoO1.pre.getD "css:")) ++ "clear" ++ ":480",
               TaskDef.callback "css.clear")] :=
  css_generator_defaults_persist demoCfg demoCfg demoO1 demoO2 [] [] ":480" rfl rfl

/-! ## Claim C7: the registry populated by the application generator -/

/-- Claim C7, counterexample to the claim as stated: for a configuration
whose type is not app, the per-resolution variants are not registered; the
registry produced by the application generator has no task named
sass:build:480. -/
theorem app_generator_lib_counterexample :
    taskLookup (appGenerator [] [] demoLibCfg) "sass:build:480" = none := rfl

/-- Claim C7 (amended): for every configuration and any contributions of
the external generators, the registry contains build, watch, serve and
default, and sass:build and css:build are each the parallel composition of
their four per-resolution variants; when the configuration type is app,
the registry additionally contains the per-resolution variants
sass:build:R and css:build:R for each resolution R. -/
theorem app_generator_registry (ext pugTasks : Registry) (cfg : AppConfig) :
    (taskLookup (appGenerator ext pugTasks cfg) "build" =
        some (TaskDef.parallel [TaskDef.ref "pug:build", TaskDef.ref "sass:build",
          TaskDef.ref "css:build", TaskDef.ref "webpack:build", TaskDef.ref "copy",
          TaskDef.serial [TaskDef.ref "gettext:prepare", TaskDef.ref "gettext:build"]]) ∧
      taskLookup (appGenerator ext pugTasks cfg) "watch" =
        some (TaskDef.callback "watch") ∧
      taskLookup (appGenerator ext pugTasks cfg) "serve" =
        some (TaskDef.parallel [TaskDef.ref "static:start", TaskDef.ref "livereload:start",
          TaskDef.ref "repl:start", TaskDef.ref "notify:start"]) ∧
      taskLookup (appGenerator ext pugTasks cfg) "default" =
        some (TaskDef.serial [TaskDef.ref "build",
          TaskDef.parallel [TaskDef.ref "watch", TaskDef.ref "serve"]]) ∧
      taskLookup (appGenerator ext pugTasks cfg) "sass:build" =
        some (TaskDef.parallel [TaskDef.ref "sass:build:480", TaskDef.ref "sass:build:576",
          TaskDef.ref "sass:build:720", TaskDef.ref "sass:build:1080"]) ∧
      taskLookup (appGenerator ext pugTasks cfg) "css:build" =
        some (TaskDef.parallel [TaskDef.ref "css:build:480", TaskDef.ref "css:build:576",
          TaskDef.ref "css:build:720", TaskDef.ref "css:build:1080"])) ∧
    (cfg.type = some "app" →
      taskLookup (appGenerator ext pugTasks cfg) "sass:build:480" =
        some (TaskDef.callback "sass.build") ∧
      taskLookup (appGenerator ext pugTasks cfg) "sass:build:576" =
        some (TaskDef.callback "sass.build") ∧
      taskLookup (appGenerator ext pugTasks cfg) "sass:build:720" =
        some (TaskDef.callback "sass.build") ∧
      taskLookup (appGenerator ext pugTasks cfg) "sass:build:1080" =
        some (TaskDef.callback "sass.build") ∧
      taskLookup (appGenerator ext pugTasks cfg) "css:build:480" =
        some (TaskDef.callback "css.build") ∧
      taskLookup (appGenerator ext pugTasks cfg) "css:build:576" =
        some (TaskDef.callback "css.build") ∧
      taskLookup (appGenerator ext pugTasks cfg) "css:build:720" =
        some (TaskDef.callback "css.build") ∧
      taskLookup (appGenerator ext pugTasks cfg) "css:build:1080" =
        some (TaskDef.callback "css.build")) := by
  constructor
  · unfold appGenerator
    exact ⟨taskLookup_append_some _ _ _ _ rfl, taskLookup_append_some _ _ _ _ rfl,
      taskLookup_append_some _ _ _ _ rfl, taskLookup_append_some _ _ _ _ rfl,
      taskLookup_append_some _ _ _ _ rfl, taskLookup_append_some _ _ _ _ rfl⟩
  · intro happ
    unfold appGenerator
    rw [if_pos happ]
    refine ⟨?_, ?_, ?_, ?_, ?_, ?_, ?_, ?_⟩
    · rw [taskLookup_append_none _ mainTasks "sass:build:480" rfl]
      exact taskLookup_append_some _ _ _ _ (taskLookup_append_some _ _ _ _ rfl)
    · rw [taskLookup_append_none _ mainTasks "sass:build:576" rfl]
      exact taskLookup_append_some _ _ _ _ (taskLookup_append_some _ _ _ _ rfl)
    · rw [taskLookup_append_none _ mainTasks "sass:build:720" rfl]
      exact taskLookup_append_some _ _ _ _ (taskLookup_append_some _ _ _ _ rfl)
    · rw [taskLookup_append_none _ mainTasks "sass:build:1080" rfl]
      exact taskLookup_append_some _ _ _ _ (taskLookup_append_some _ _ _ _ rfl)
    · rw [taskLookup_append_none _ mainTasks "css:build:480" rfl]
      exact taskLookup_append_some _ _ _ _ (taskLookup_append_some _ _ _ _ rfl)
    · rw [taskLookup_append_none _ mainTasks "css:build:576" rfl]
      exact taskLookup_append_some _ _ _ _ (taskLookup_append_some _ _ _ _ rfl)
    · rw [taskLookup_append_none _ mainTasks "css:build:720" rfl]
      exact taskLookup_append_some _ _ _ _ (taskLookup_append_some _ _ _ _ rfl)
    · rw [taskLookup_append_none _ mainTasks "css:build:1080" rfl]
      exact taskLookup_append_some _ _ _ _ (taskLookup_append_some _ _ _ _ rfl)

/-- Witness for the amended claim C7 at a concrete application-type
configuration. -/
theorem app_generator_registry_witness :
    taskLookup (appGenerator [] [] demoAppCfg) "sass:build:480" =
      some (TaskDef.callback "sass.build") :=
  ((app_generator_registry [] [] demoAppCfg).2 rfl).1

/-! ## Claim C8: serial composites stop at the first failing step -/

/-- Claim C8: for a serial composite, if the step at position i fails and
every earlier step succeeds, then exactly the first i plus one steps run
(in order) and none of the later steps runs; the composite reports
failure. -/
theorem serial_stops_at_first_failure (env : String → Bool) :
    ∀ (names : List String) (i : Nat) (hi : i < names.length),
      env (names.get ⟨i, hi⟩) = false →
      (∀ j (hj : j < names.length), j < i → env (names.get ⟨j, hj⟩) = true) →
      runSerial env names = (false, names.take (i + 1)) := by
  intro names
  induction names with
  | nil => intro i hi; exact absurd hi (Nat.not_lt_zero i)
  | cons n rest ih =>
      intro i hi hfail hok
      cases i with
      | zero =>
          have hn : env n = false := hfail
          simp [runSerial, hn]
      | succ k =>
          have hn : env n = true := hok 0 (Nat.succ_pos rest.length) (Nat.succ_pos k)
          have hk : k < rest.length := Nat.lt_of_succ_lt_succ hi
          have hfail2 : env (rest.get ⟨k, hk⟩) = false := hfail
          have hok2 : ∀ j (hj : j < rest.length), j < k →
              env (rest.get ⟨j, hj⟩) = true := by
            intro j hj hjk
            exact hok (j + 1) (Nat.succ_lt_succ hj) (Nat.succ_lt_succ hjk)
          simp [runSerial, hn, ih k hk hfail2 hok2]

/-- Witness for claim C8 at a concrete input: the second of three steps
fails, so the first two run and the third does not. -/
theorem serial_stops_witness :
    runSerial demoEnv ["a", "b", "c"] = (false, ["a", "b"]) :=
  serial_stops_at_first_failure demoEnv ["a", "b", "c"] 1 (by decide) (by decide)
    (by
      intro j hj hj1
      have hj0 : j = 0 := Nat.lt_one_iff.mp hj1
      subst hj0
      rfl)

/-! ## Claim C10: the build target directory -/

/-- Claim C10: the target directory is build joined with TARGET when the
TARGET variable is set to a non-empty string; otherwise build joined with
the lowercased PLATFORM when that variable is set to a non-empty string;
otherwise the literal build/target, the lowercasing of the fallback
string TARGET. -/
theorem app_target_dir (tgt plat : Option String) :
    (∀ t, tgt = some t → t ≠ "" → targetDir tgt plat = "build/" ++ t) ∧
    (∀ p, (tgt = none ∨ tgt = some "") → plat = some p → p ≠ "" →
      targetDir tgt plat = "build/" ++ toLowerStr p) ∧
    ((tgt = none ∨ tgt = some "") → (plat = none ∨ plat = some "") →
      targetDir tgt plat = "build/target") := by
  refine ⟨?_, ?_, ?_⟩
  · intro t ht hne
    subst ht
    simp [targetDir, jsOr, hne]
  · intro p htgt hp hne
    subst hp
    rcases htgt with h | h <;> subst h <;> simp [targetDir, jsOr, hne]
  · intro htgt hplat
    rcases htgt with h | h <;> rcases hplat with h2 | h2 <;> subst h <;> subst h2 <;> rfl

/-- Witness for claim C10 at a concrete input: no TARGET variable and
PLATFORM set to MAG yields build slash the lowercased platform. -/
theorem app_target_dir_witness :
    targetDir none (some "MAG") = "build/" ++ toLowerStr "MAG" :=
  (app_target_dir none (some "MAG")).2.1 "MAG" (Or.inl rfl) rfl (by decide)
